import Mathlib

/-!
# gate: configuration loading (`conf.go`)

A shallow embedding of `ParseConf` from `conf.go`.  Go strings are `String`,
slices are `List`, a nil pointer or nil `error` is `none`.  A Go `error` is
represented by its message.  The file read and the YAML decoder are external
to the repository and are taken as parameters of `ParseConf`.
-/

namespace Gate

/-- SSLConf (conf.go, lines 24-27). -/
structure SSLConf where
  Cert : String
  Key : String
deriving DecidableEq, Repr

/-- AuthSessionConf (conf.go, lines 34-37). -/
structure AuthSessionConf where
  Key : String
  CookieDomain : String
deriving DecidableEq, Repr

/-- AuthInfoConf (conf.go, lines 39-46). -/
structure AuthInfoConf where
  Service : String
  ClientId : String
  ClientSecret : String
  RedirectURL : String
  Endpoint : String
  ApiEndpoint : String
deriving DecidableEq, Repr

/-- AuthConf (conf.go, lines 29-32). -/
structure AuthConf where
  Session : AuthSessionConf
  Info : AuthInfoConf
deriving DecidableEq, Repr

/-- ProxyConf (conf.go, lines 48-53). -/
structure ProxyConf where
  Path : String
  Dest : String
  Strip : Bool
  Host : String
deriving DecidableEq, Repr

/-- PathConf (conf.go, lines 55-60). -/
structure PathConf where
  Login : String
  Logout : String
  Callback : String
  Error : String
deriving DecidableEq, Repr

/-- Conf (conf.go, lines 14-22). -/
structure Conf where
  Addr : String
  SSL : SSLConf
  Auth : AuthConf
  Restrictions : List String
  Proxies : List ProxyConf
  Paths : PathConf
  Htdocs : String
deriving DecidableEq, Repr

/-- The zero value `&Conf{}` allocated at conf.go line 68. -/
def Conf.zero : Conf :=
  { Addr := "", SSL := ⟨"", ""⟩,
    Auth := ⟨⟨"", ""⟩, ⟨"", "", "", "", "", ""⟩⟩,
    Restrictions := [], Proxies := [], Paths := ⟨"", "", "", ""⟩, Htdocs := "" }

/-- The Go result pair `(*Conf, error)`: `none` stands for `nil`. -/
abbrev ParseResult := Option Conf × Option String

/-- Assignment `c.Auth.Info.Endpoint = v`. -/
def Conf.setEndpoint (c : Conf) (v : String) : Conf :=
  { c with Auth := { c.Auth with Info := { c.Auth.Info with Endpoint := v } } }

/-- Assignment `c.Auth.Info.ApiEndpoint = v`. -/
def Conf.setApiEndpoint (c : Conf) (v : String) : Conf :=
  { c with Auth := { c.Auth with Info := { c.Auth.Info with ApiEndpoint := v } } }

/-- Lines 93-102 of `ParseConf`: the three conditional assignments, executed
in sequence on the decoded value. -/
def applyDefaults (c : Conf) : Conf :=
  let c1 := if c.Htdocs = "" then { c with Htdocs := "." } else c
  let c2 := if c1.Auth.Info.Service = "github" ∧ c1.Auth.Info.Endpoint = "" then
      c1.setEndpoint "https://github.com" else c1
  let c3 := if c2.Auth.Info.Service = "github" ∧ c2.Auth.Info.ApiEndpoint = "" then
      c2.setApiEndpoint "https://api.github.com" else c2
  c3

/-- Lines 73-104 of `ParseConf`: the part that runs on the decoded document. -/
def validateConf (c : Conf) : ParseResult :=
  if c.Addr = "" then
    (none, some "address config is required")
  else if c.Auth.Session.Key = "" then
    (none, some "auth.session.key config is required")
  else if c.Auth.Info.Service = "" then
    (none, some "auth.info.service config is required")
  else if c.Auth.Info.ClientId = "" then
    (none, some "auth.info.client_id config is required")
  else if c.Auth.Info.ClientSecret = "" then
    (none, some "auth.info.client_secret config is required")
  else if c.Auth.Info.RedirectURL = "" then
    (none, some "auth.info.redirect_url config is required")
  else
    (some (applyDefaults c), none)

/-- ParseConf (conf.go, lines 62-105).  `readFile` stands for `ioutil.ReadFile`
and `unmarshal` for `yaml.Unmarshal(data, c)`, which fills the value that `c`
points to and returns an error or nil. -/
def ParseConf {β : Type} (readFile : String → β × Option String)
    (unmarshal : β → Conf → Conf × Option String) (path : String) : ParseResult :=
  match readFile path with
  | (_, some err) => (none, some err)
  | (data, none) =>
    match unmarshal data Conf.zero with
    | (_, some err) => (none, some err)
    | (c, none) => validateConf c

/-- The six fields that `ParseConf` checks for presence, in source order. -/
inductive RequiredField
  | addr | sessionKey | service | clientId | clientSecret | redirectURL
deriving DecidableEq, Repr

/-- The value of a required field in a document. -/
def RequiredField.value (c : Conf) : RequiredField → String
  | .addr => c.Addr
  | .sessionKey => c.Auth.Session.Key
  | .service => c.Auth.Info.Service
  | .clientId => c.Auth.Info.ClientId
  | .clientSecret => c.Auth.Info.ClientSecret
  | .redirectURL => c.Auth.Info.RedirectURL

/-- The dotted name under which the source's error message reports a field. -/
def RequiredField.dottedName : RequiredField → String
  | .addr => "address"
  | .sessionKey => "auth.session.key"
  | .service => "auth.info.service"
  | .clientId => "auth.info.client_id"
  | .clientSecret => "auth.info.client_secret"
  | .redirectURL => "auth.info.redirect_url"

/-- A document in which every required field is present (from `TestParse`). -/
def sampleConf : Conf :=
  { Addr := ":9999", SSL := ⟨"", ""⟩,
    Auth := ⟨⟨"secret", ""⟩,
      ⟨"google", "secret client id", "secret client secret",
        "http://example.com/oauth2callback", "", ""⟩⟩,
    Restrictions := [],
    Proxies := [⟨"/foo", "http://example.com/bar", true, ""⟩],
    Paths := ⟨"", "", "", ""⟩, Htdocs := "./" }

/-- Position of a required field in the order of the checks. -/
def RequiredField.idx : RequiredField → Nat
  | .addr => 0
  | .sessionKey => 1
  | .service => 2
  | .clientId => 3
  | .clientSecret => 4
  | .redirectURL => 5

/-- The document `c` with every field that is not one of the six required
ones replaced by the given values. -/
def Conf.replaceOptional (c : Conf) (ssl : SSLConf) (rs : List String)
    (ps : List ProxyConf) (paths : PathConf)
    (htdocs endpoint apiEndpoint cookieDomain : String) : Conf :=
  { Addr := c.Addr, SSL := ssl,
    Auth := ⟨⟨c.Auth.Session.Key, cookieDomain⟩,
      ⟨c.Auth.Info.Service, c.Auth.Info.ClientId, c.Auth.Info.ClientSecret,
        c.Auth.Info.RedirectURL, endpoint, apiEndpoint⟩⟩,
    Restrictions := rs, Proxies := ps, Paths := paths, Htdocs := htdocs }

/-- The document `c` with its proxy list replaced by `ps`. -/
def Conf.withProxies (c : Conf) (ps : List ProxyConf) : Conf :=
  { c with Proxies := ps }

/-- Some required field of the document is the empty string. -/
def anyRequiredEmpty (c : Conf) : Prop :=
  c.Addr = "" ∨ c.Auth.Session.Key = "" ∨ c.Auth.Info.Service = "" ∨
    c.Auth.Info.ClientId = "" ∨ c.Auth.Info.ClientSecret = "" ∨
    c.Auth.Info.RedirectURL = ""

/-! ## Sample documents and stand-ins for the external calls -/

/-- The document of `TestParseGithubServiceShouldSetDefaultValue`: service
"github", endpoint and api_endpoint left out. -/
def githubConf : Conf :=
  { Addr := ":9999", SSL := ⟨"", ""⟩,
    Auth := ⟨⟨"secret", ""⟩,
      ⟨"github", "secret client id", "secret client secret",
        "http://example.com/oauth2callback", "", ""⟩⟩,
    Restrictions := [],
    Proxies := [⟨"/foo", "http://example.com/bar", true, ""⟩],
    Paths := ⟨"", "", "", ""⟩, Htdocs := "./" }

/-- A document whose service is "GitHub", differing from "github" in case
only, with both endpoints left out. -/
def mixedCaseConf : Conf :=
  { githubConf with
    Auth := ⟨⟨"secret", ""⟩, ⟨"GitHub", "id", "secret", "http://example.com/cb", "", ""⟩⟩ }

/-- A file read that succeeds. -/
def readOk : String → Unit × Option String := fun _ => ((), none)

/-- A decoder that fills the target with the document `d` and reports no
error. -/
def decodeAs (d : Conf) : Unit → Conf → Conf × Option String := fun _ _ => (d, none)

/-- A document with all required fields whose single proxy entry gives only a
host: its path and dest decode to the empty string. -/
def hostOnlyProxyConf : Conf :=
  { sampleConf with Proxies := [⟨"", "", false, "elasticsearch.example.com"⟩] }

/-- The document of `TestParseNamebasedVhosts`: two routes with path "/" and
distinct hosts. -/
def vhostConf : Conf :=
  { Addr := ":9999", SSL := ⟨"", ""⟩,
    Auth := ⟨⟨"secret", "example.com"⟩,
      ⟨"google", "secret client id", "secret client secret",
        "http://example.com/oauth2callback", "", ""⟩⟩,
    Restrictions := [],
    Proxies := [⟨"/", "http://127.0.0.1:9200", false, "elasticsearch.example.com"⟩,
      ⟨"/", "http://127.0.0.1:8086", false, "influxdb.example.com"⟩],
    Paths := ⟨"", "", "", ""⟩, Htdocs := "./" }

/-- The document of `TestParseMultiRestrictions`. -/
def restrictedConf : Conf :=
  { sampleConf with Restrictions := ["example1.com", "example2.com"] }

/-! ## SetOAuth2Paths -/

/-- The four package-level variables of the external `oauth2` package that
`SetOAuth2Paths` assigns (conf.go, lines 109-118). -/
structure OAuth2Paths where
  PathLogin : String
  PathLogout : String
  PathCallback : String
  PathError : String
deriving DecidableEq, Repr

/-- SetOAuth2Paths (conf.go, lines 107-120).  The state is the receiver
together with the `oauth2` path variables; the four conditional assignments
run in sequence and the receiver is only read. -/
def Conf.SetOAuth2Paths (c : Conf) (g : OAuth2Paths) : Conf × OAuth2Paths :=
  let g1 := if c.Paths.Login ≠ "" then { g with PathLogin := c.Paths.Login } else g
  let g2 := if c.Paths.Logout ≠ "" then { g1 with PathLogout := c.Paths.Logout } else g1
  let g3 := if c.Paths.Callback ≠ "" then { g2 with PathCallback := c.Paths.Callback } else g2
  let g4 := if c.Paths.Error ≠ "" then { g3 with PathError := c.Paths.Error } else g3
  (c, g4)

/-- The document of `TestPathConf`: all four paths given. -/
def pathConf : Conf :=
  { Addr := ":9999", SSL := ⟨"", ""⟩,
    Auth := ⟨⟨"secret", ""⟩,
      ⟨"github", "secret client id", "secret client secret",
        "http://example.com/_gate_callback", "", ""⟩⟩,
    Restrictions := [], Proxies := [],
    Paths := ⟨"/_gate_login", "/_gate_logout", "/_gate_callback", "/_gate_error"⟩,
    Htdocs := "" }

/-- A document that overrides the login path only. -/
def loginOnlyConf : Conf :=
  { sampleConf with Paths := ⟨"/_gate_login", "", "", ""⟩ }

/-- A path table as it may stand before `SetOAuth2Paths` runs. -/
def priorPaths : OAuth2Paths :=
  ⟨"/login", "/logout", "/oauth2callback", "/oauth2error"⟩

/-- A file read that fails with the given error. -/
def readFail (err : String) : String → Unit × Option String := fun _ => ((), some err)

/-- A decoder that reports the given error, having written part of the
document `d` into the target. -/
def decodeFail (d : Conf) (err : String) : Unit → Conf → Conf × Option String :=
  fun _ _ => (d, some err)

/-- Two documents agree on every field. -/
def Conf.fieldwiseEq (c d : Conf) : Prop :=
  c.Addr = d.Addr ∧ c.SSL.Cert = d.SSL.Cert ∧ c.SSL.Key = d.SSL.Key ∧
    c.Auth.Session.Key = d.Auth.Session.Key ∧
    c.Auth.Session.CookieDomain = d.Auth.Session.CookieDomain ∧
    c.Auth.Info.Service = d.Auth.Info.Service ∧
    c.Auth.Info.ClientId = d.Auth.Info.ClientId ∧
    c.Auth.Info.ClientSecret = d.Auth.Info.ClientSecret ∧
    c.Auth.Info.RedirectURL = d.Auth.Info.RedirectURL ∧
    c.Auth.Info.Endpoint = d.Auth.Info.Endpoint ∧
    c.Auth.Info.ApiEndpoint = d.Auth.Info.ApiEndpoint ∧
    c.Restrictions = d.Restrictions ∧ c.Proxies = d.Proxies ∧
    c.Paths.Login = d.Paths.Login ∧ c.Paths.Logout = d.Paths.Logout ∧
    c.Paths.Callback = d.Paths.Callback ∧ c.Paths.Error = d.Paths.Error ∧
    c.Htdocs = d.Htdocs

/-! ## RouteTable and AccessPolicy -/

/-- Modelled from the spec: the candidate test of `RouteTable.Match`, which is
not among the source files.  Spec 4.3: "a route is a candidate if (route.host
is empty OR equals hostHeader, case-sensitive exact match) AND requestPath
starts with route.path as a literal prefix". -/
def RouteTable.isCandidate (r : ProxyConf) (hostHeader requestPath : String) : Bool :=
  (r.Host == "" || r.Host == hostHeader) && r.Path.data.isPrefixOf requestPath.data

/-- Modelled from the spec: `RouteTable.Match`, which is not among the source
files; only the `ProxyConf` declaration is.  Spec 4.3: "scan routes in
declaration order ... The first candidate in declaration order is selected
... No match yields NoMatch".  `none` is NoMatch.  The forwarded path that
the spec returns next to the route is left out. -/
def RouteTable.Match : List ProxyConf → String → String → Option ProxyConf
  | [], _, _ => none
  | r :: rest, hostHeader, requestPath =>
    if RouteTable.isCandidate r hostHeader requestPath then some r
    else RouteTable.Match rest hostHeader requestPath

/-- The candidate condition of spec 4.3 as a proposition, with "starts with"
read as the list-prefix relation on the characters. -/
def RouteTable.Qualifies (r : ProxyConf) (hostHeader requestPath : String) : Prop :=
  (r.Host = "" ∨ r.Host = hostHeader) ∧ r.Path.data <+: requestPath.data

/-- Modelled from the spec: the test "identifier ends with (case-insensitive)"
a restriction string of spec 4.4.  The spec does not say which case folding
is meant, so the folding of a character is the parameter `fold`. -/
def AccessPolicy.endsWithFold (fold : Char → Char) (identifier restriction : String) : Bool :=
  (restriction.data.map fold).isSuffixOf (identifier.data.map fold)

/-- Modelled from the spec: `AccessPolicy.IsAllowed`, which is not among the
source files; only the `Restrictions` field of `Conf` is.  Spec 4.4: "if the
restriction sequence is empty, always true (unrestricted). Otherwise true iff
identifier ends with (case-insensitive) one of the configured restriction
strings". -/
def AccessPolicy.IsAllowed (fold : Char → Char) (restrictions : List String)
    (identifier : String) : Bool :=
  match restrictions with
  | [] => true
  | r :: rest =>
    AccessPolicy.endsWithFold fold identifier r ||
      rest.any (fun q => AccessPolicy.endsWithFold fold identifier q)

/-! ## Basic facts about the embedding -/

theorem validateConf_ok_iff (c c' : Conf) :
    validateConf c = (some c', none) ↔
      (¬ anyRequiredEmpty c ∧ c' = applyDefaults c) := by
  unfold validateConf anyRequiredEmpty
  split_ifs <;> simp [*]
  exact eq_comm

theorem validateConf_err_iff (c : Conf) :
    (validateConf c).2 ≠ none ↔ anyRequiredEmpty c := by
  unfold validateConf anyRequiredEmpty
  split_ifs <;> simp [*]

theorem validateConf_fst_iff (c c' : Conf) :
    (validateConf c).1 = some c' ↔ validateConf c = (some c', none) := by
  unfold validateConf
  split_ifs <;> simp [*]

theorem applyDefaults_htdocs (c : Conf) :
    (applyDefaults c).Htdocs = if c.Htdocs = "" then "." else c.Htdocs := by
  simp only [applyDefaults, Conf.setEndpoint, Conf.setApiEndpoint]
  by_cases h1 : c.Htdocs = "" <;> by_cases h2 : c.Auth.Info.Service = "github" <;>
    by_cases h3 : c.Auth.Info.Endpoint = "" <;>
    by_cases h4 : c.Auth.Info.ApiEndpoint = "" <;> simp [*]

theorem applyDefaults_endpoint (c : Conf) :
    (applyDefaults c).Auth.Info.Endpoint =
      if c.Auth.Info.Service = "github" ∧ c.Auth.Info.Endpoint = "" then
        "https://github.com" else c.Auth.Info.Endpoint := by
  simp only [applyDefaults, Conf.setEndpoint, Conf.setApiEndpoint]
  by_cases h1 : c.Htdocs = "" <;> by_cases h2 : c.Auth.Info.Service = "github" <;>
    by_cases h3 : c.Auth.Info.Endpoint = "" <;>
    by_cases h4 : c.Auth.Info.ApiEndpoint = "" <;> simp [*]

theorem applyDefaults_apiEndpoint (c : Conf) :
    (applyDefaults c).Auth.Info.ApiEndpoint =
      if c.Auth.Info.Service = "github" ∧ c.Auth.Info.ApiEndpoint = "" then
        "https://api.github.com" else c.Auth.Info.ApiEndpoint := by
  simp only [applyDefaults, Conf.setEndpoint, Conf.setApiEndpoint]
  by_cases h1 : c.Htdocs = "" <;> by_cases h2 : c.Auth.Info.Service = "github" <;>
    by_cases h3 : c.Auth.Info.Endpoint = "" <;>
    by_cases h4 : c.Auth.Info.ApiEndpoint = "" <;> simp [*]

/-- Everything except the three defaulted fields is left as decoded. -/
theorem applyDefaults_frame (c : Conf) :
    applyDefaults c =
      { c with
        Htdocs := (applyDefaults c).Htdocs
        Auth := { c.Auth with
          Info := { c.Auth.Info with
            Endpoint := (applyDefaults c).Auth.Info.Endpoint
            ApiEndpoint := (applyDefaults c).Auth.Info.ApiEndpoint } } } := by
  obtain ⟨a, ssl, ⟨sess, ⟨sv, ci, cs, ru, ep, ae⟩⟩, rs, ps, pa, hd⟩ := c
  simp only [applyDefaults, Conf.setEndpoint, Conf.setApiEndpoint]
  by_cases h1 : hd = "" <;> by_cases h2 : sv = "github" <;>
    by_cases h3 : ep = "" <;> by_cases h4 : ae = "" <;> simp [*]

theorem applyDefaults_proxies (c : Conf) (ps : List ProxyConf) :
    applyDefaults (c.withProxies ps) = (applyDefaults c).withProxies ps := by
  obtain ⟨a, ssl, ⟨sess, ⟨sv, ci, cs, ru, ep, ae⟩⟩, rs, qs, pa, hd⟩ := c
  simp only [applyDefaults, Conf.setEndpoint, Conf.setApiEndpoint, Conf.withProxies]
  by_cases h1 : hd = "" <;> by_cases h2 : sv = "github" <;>
    by_cases h3 : ep = "" <;> by_cases h4 : ae = "" <;> simp [*]

/-- A successful `ParseConf` went through a successful read, a successful
decode and a successful validation of the decoded document. -/
theorem ParseConf_ok_inv {β : Type} (readFile : String → β × Option String)
    (unmarshal : β → Conf → Conf × Option String) (path : String) (c' : Conf)
    (h : (ParseConf readFile unmarshal path).1 = some c') :
    ∃ data c, readFile path = (data, none) ∧ unmarshal data Conf.zero = (c, none) ∧
      validateConf c = (some c', none) := by
  unfold ParseConf at h
  split at h
  · simp at h
  · rename_i data hr
    split at h
    · simp at h
    · rename_i c hu
      exact ⟨data, c, hr, hu, (validateConf_fst_iff c c').1 h⟩

theorem validateConf_nil_iff (c : Conf) :
    (validateConf c).1 = none ↔ (validateConf c).2 ≠ none := by
  unfold validateConf
  split_ifs <;> simp

theorem applyDefaults_idem (c : Conf) : applyDefaults (applyDefaults c) = applyDefaults c := by
  obtain ⟨a, ssl, ⟨sess, ⟨sv, ci, cs, ru, ep, ae⟩⟩, rs, qs, pa, hd⟩ := c
  simp only [applyDefaults, Conf.setEndpoint, Conf.setApiEndpoint]
  by_cases h1 : hd = "" <;> by_cases h2 : sv = "github" <;>
    by_cases h3 : ep = "" <;> by_cases h4 : ae = "" <;> simp [*]

theorem anyRequiredEmpty_applyDefaults (c : Conf) :
    anyRequiredEmpty (applyDefaults c) ↔ anyRequiredEmpty c := by
  rw [applyDefaults_frame]
  simp [anyRequiredEmpty]

theorem Conf.fieldwiseEq_iff (c d : Conf) : c.fieldwiseEq d ↔ c = d := by
  obtain ⟨a, ⟨s1, s2⟩, ⟨⟨k, cd⟩, ⟨sv, ci, cs, ru, ep, ae⟩⟩, rs, qs, ⟨p1, p2, p3, p4⟩, hd⟩ := c
  obtain ⟨a', ⟨s1', s2'⟩, ⟨⟨k', cd'⟩, ⟨sv', ci', cs', ru', ep', ae'⟩⟩, rs', qs',
    ⟨p1', p2', p3', p4'⟩, hd'⟩ := d
  simp only [Conf.fieldwiseEq, Conf.mk.injEq, SSLConf.mk.injEq, AuthConf.mk.injEq,
    AuthSessionConf.mk.injEq, AuthInfoConf.mk.injEq, PathConf.mk.injEq]
  tauto

theorem RouteTable.isCandidate_iff (r : ProxyConf) (hostHeader requestPath : String) :
    RouteTable.isCandidate r hostHeader requestPath = true ↔
      RouteTable.Qualifies r hostHeader requestPath := by
  simp [RouteTable.isCandidate, RouteTable.Qualifies]

theorem AccessPolicy.endsWithFold_iff (fold : Char → Char) (identifier restriction : String) :
    AccessPolicy.endsWithFold fold identifier restriction = true ↔
      restriction.data.map fold <:+ identifier.data.map fold := by
  simp [AccessPolicy.endsWithFold]

theorem ParseConf_read_err {β : Type} (readFile : String → β × Option String)
    (unmarshal : β → Conf → Conf × Option String) (path : String) (data : β) (e : String)
    (hr : readFile path = (data, some e)) :
    ParseConf readFile unmarshal path = (none, some e) := by
  simp [ParseConf, hr]

theorem ParseConf_decode_err {β : Type} (readFile : String → β × Option String)
    (unmarshal : β → Conf → Conf × Option String) (path : String) (data : β) (c : Conf)
    (e : String) (hr : readFile path = (data, none))
    (hu : unmarshal data Conf.zero = (c, some e)) :
    ParseConf readFile unmarshal path = (none, some e) := by
  simp [ParseConf, hr, hu]

theorem ParseConf_decoded {β : Type} (readFile : String → β × Option String)
    (unmarshal : β → Conf → Conf × Option String) (path : String) (data : β) (c : Conf)
    (hr : readFile path = (data, none)) (hu : unmarshal data Conf.zero = (c, none)) :
    ParseConf readFile unmarshal path = validateConf c := by
  simp [ParseConf, hr, hu]

theorem RouteTable.Match_cons_pos (a : ProxyConf) (rest : List ProxyConf)
    (hostHeader requestPath : String)
    (ha : RouteTable.isCandidate a hostHeader requestPath = true) :
    RouteTable.Match (a :: rest) hostHeader requestPath = some a := by
  simp [RouteTable.Match, ha]

theorem RouteTable.Match_cons_neg (a : ProxyConf) (rest : List ProxyConf)
    (hostHeader requestPath : String)
    (ha : ¬ RouteTable.isCandidate a hostHeader requestPath = true) :
    RouteTable.Match (a :: rest) hostHeader requestPath =
      RouteTable.Match rest hostHeader requestPath := by
  simp [RouteTable.Match, ha]

theorem RouteTable.Match_eq_none_iff (routes : List ProxyConf)
    (hostHeader requestPath : String) :
    RouteTable.Match routes hostHeader requestPath = none ↔
      ∀ q ∈ routes, ¬ RouteTable.Qualifies q hostHeader requestPath := by
  induction routes with
  | nil => simp [RouteTable.Match]
  | cons a rest ih =>
    by_cases ha : RouteTable.isCandidate a hostHeader requestPath = true
    · have hq := (RouteTable.isCandidate_iff a hostHeader requestPath).1 ha
      rw [RouteTable.Match_cons_pos a rest hostHeader requestPath ha]
      simp only [List.mem_cons]
      constructor
      · intro h
        cases h
      · intro h
        exact absurd hq (h a (Or.inl rfl))
    · have hq : ¬ RouteTable.Qualifies a hostHeader requestPath :=
        fun h => ha ((RouteTable.isCandidate_iff a hostHeader requestPath).2 h)
      rw [RouteTable.Match_cons_neg a rest hostHeader requestPath ha, ih]
      simp only [List.mem_cons]
      constructor
      · rintro h q (rfl | hm)
        · exact hq
        · exact h q hm
      · intro h q hm
        exact h q (Or.inr hm)

theorem RouteTable.Match_eq_some_iff (routes : List ProxyConf)
    (hostHeader requestPath : String) (r : ProxyConf) :
    RouteTable.Match routes hostHeader requestPath = some r ↔
      ∃ before after, routes = before ++ r :: after ∧
        RouteTable.Qualifies r hostHeader requestPath ∧
        ∀ q ∈ before, ¬ RouteTable.Qualifies q hostHeader requestPath := by
  induction routes with
  | nil => simp [RouteTable.Match]
  | cons a rest ih =>
    by_cases ha : RouteTable.isCandidate a hostHeader requestPath = true
    · have hq := (RouteTable.isCandidate_iff a hostHeader requestPath).1 ha
      rw [RouteTable.Match_cons_pos a rest hostHeader requestPath ha]
      simp only [Option.some.injEq]
      constructor
      · rintro rfl
        exact ⟨[], rest, rfl, hq, by simp⟩
      · rintro ⟨before, after, he, -, hb⟩
        cases before with
        | nil =>
          simp only [List.nil_append, List.cons.injEq] at he
          exact he.1
        | cons b bs =>
          simp only [List.cons_append, List.cons.injEq] at he
          exact absurd (he.1 ▸ hq) (hb b (List.mem_cons_self b bs))
    · have hq : ¬ RouteTable.Qualifies a hostHeader requestPath :=
        fun h => ha ((RouteTable.isCandidate_iff a hostHeader requestPath).2 h)
      rw [RouteTable.Match_cons_neg a rest hostHeader requestPath ha, ih]
      constructor
      · rintro ⟨before, after, rfl, hr, hb⟩
        refine ⟨a :: before, after, rfl, hr, ?_⟩
        rintro q hm
        rcases List.mem_cons.1 hm with rfl | hm
        · exact hq
        · exact hb q hm
      · rintro ⟨before, after, he, hr, hb⟩
        cases before with
        | nil =>
          simp only [List.nil_append, List.cons.injEq] at he
          exact absurd (he.1 ▸ hr) hq
        | cons b bs =>
          simp only [List.cons_append, List.cons.injEq] at he
          exact ⟨bs, after, he.2, hr, fun q hm => hb q (List.mem_cons_of_mem b hm)⟩

/-! ## Presence checks -/

/-- C1: validation of a decoded document fails (non-nil error, nil Config)
exactly when one of the six required fields is the empty string; replacing
every other field (ssl, restrictions, proxy, paths, htdocs, endpoint,
api_endpoint, cookie_domain) by arbitrary values never changes whether it
fails. -/
theorem C1_fails_iff_required_empty (c : Conf) (ssl : SSLConf) (rs : List String)
    (ps : List ProxyConf) (paths : PathConf)
    (htdocs endpoint apiEndpoint cookieDomain : String) :
    ((validateConf c).2 ≠ none ↔
        (c.Addr = "" ∨ c.Auth.Session.Key = "" ∨ c.Auth.Info.Service = "" ∨
          c.Auth.Info.ClientId = "" ∨ c.Auth.Info.ClientSecret = "" ∨
          c.Auth.Info.RedirectURL = "")) ∧
      ((validateConf c).1 = none ↔ (validateConf c).2 ≠ none) ∧
      ((validateConf
          (c.replaceOptional ssl rs ps paths htdocs endpoint apiEndpoint cookieDomain)).2 ≠ none ↔
        (validateConf c).2 ≠ none) := by
  refine ⟨validateConf_err_iff c, ?_, ?_⟩
  · unfold validateConf
    split_ifs <;> simp
  · rw [validateConf_err_iff, validateConf_err_iff]
    simp [anyRequiredEmpty, Conf.replaceOptional]

/-- C2: when some required field is empty, the error is the one for the first
empty field in the order address, auth.session.key, auth.info.service,
client id, client secret, redirect URL: its message is that field's dotted
name, spelled as the document key path (`auth.info.client_id` and so on),
followed by " config is required", and no Config is returned.  Only the field
itself and the fields checked before it are constrained, so the later fields
may hold anything. -/
theorem C2_first_missing_field_reported (c : Conf) (f : RequiredField)
    (hf : f.value c = "")
    (hfirst : ∀ g : RequiredField, g.idx < f.idx → g.value c ≠ "") :
    validateConf c = (none, some (f.dottedName ++ " config is required")) := by
  have h0 := hfirst .addr
  have h1 := hfirst .sessionKey
  have h2 := hfirst .service
  have h3 := hfirst .clientId
  have h4 := hfirst .clientSecret
  cases f <;>
    simp [RequiredField.idx, RequiredField.value] at hf h0 h1 h2 h3 h4 <;>
    simp [validateConf, *] <;> decide

/-- A document whose client id and redirect URL are both missing: the client
id, checked first, is the one reported. -/
theorem C2_first_missing_field_reported_witness :
    validateConf
        { sampleConf with
          Auth := ⟨⟨"secret", ""⟩, ⟨"google", "", "secret client secret", "", "", ""⟩⟩ } =
      (none, some "auth.info.client_id config is required") :=
  C2_first_missing_field_reported _ .clientId (by decide)
    (by intro g hg; cases g <;> first | decide | exact absurd hg (by decide))

/-! ## Defaults -/

/-- C3: for a document that passes validation with service "github", an empty
endpoint becomes "https://github.com" and an empty api_endpoint becomes
"https://api.github.com"; each of the two is decided by its own field only. -/
theorem C3_github_defaults (c c' : Conf) (h : validateConf c = (some c', none))
    (hs : c.Auth.Info.Service = "github") :
    (c.Auth.Info.Endpoint = "" → c'.Auth.Info.Endpoint = "https://github.com") ∧
      (c.Auth.Info.ApiEndpoint = "" →
        c'.Auth.Info.ApiEndpoint = "https://api.github.com") := by
  obtain ⟨-, rfl⟩ := (validateConf_ok_iff c c').1 h
  rw [applyDefaults_endpoint, applyDefaults_apiEndpoint]
  constructor <;> intro he <;> simp [hs, he]

/-- The test document gets both defaults; with api_endpoint provided, the
endpoint is still defaulted. -/
theorem C3_github_defaults_witness :
    (validateConf githubConf = (some (applyDefaults githubConf), none) ∧
        (applyDefaults githubConf).Auth.Info.Endpoint = "https://github.com" ∧
        (applyDefaults githubConf).Auth.Info.ApiEndpoint = "https://api.github.com") ∧
      (githubConf.setApiEndpoint "https://ghe.example.com/api").Auth.Info.Endpoint = "" ∧
      (applyDefaults (githubConf.setApiEndpoint "https://ghe.example.com/api")
        ).Auth.Info.Endpoint = "https://github.com" :=
  ⟨⟨by decide,
      (C3_github_defaults githubConf _ (by decide) (by decide)).1 (by decide),
      (C3_github_defaults githubConf _ (by decide) (by decide)).2 (by decide)⟩,
    by decide,
    (C3_github_defaults (githubConf.setApiEndpoint "https://ghe.example.com/api") _
      (by decide) (by decide)).1 (by decide)⟩

/-- C4: for a document that passes validation, a non-empty endpoint or
api_endpoint is kept as provided, and when the service is not exactly
"github" both fields of the result equal the document's values, empty ones
included. -/
theorem C4_endpoints_not_overwritten (c c' : Conf)
    (h : validateConf c = (some c', none)) :
    (c.Auth.Info.Endpoint ≠ "" → c'.Auth.Info.Endpoint = c.Auth.Info.Endpoint) ∧
      (c.Auth.Info.ApiEndpoint ≠ "" →
        c'.Auth.Info.ApiEndpoint = c.Auth.Info.ApiEndpoint) ∧
      (c.Auth.Info.Service ≠ "github" →
        c'.Auth.Info.Endpoint = c.Auth.Info.Endpoint ∧
          c'.Auth.Info.ApiEndpoint = c.Auth.Info.ApiEndpoint) := by
  obtain ⟨-, rfl⟩ := (validateConf_ok_iff c c').1 h
  rw [applyDefaults_endpoint, applyDefaults_apiEndpoint]
  refine ⟨fun he => by simp [he], fun he => by simp [he], fun hs => by simp [hs]⟩

/-- The service "GitHub" gets no default: both endpoints stay empty. -/
theorem C4_endpoints_not_overwritten_witness :
    validateConf mixedCaseConf = (some mixedCaseConf, none) ∧
      mixedCaseConf.Auth.Info.Service ≠ "github" ∧
      mixedCaseConf.Auth.Info.Endpoint = "" ∧ mixedCaseConf.Auth.Info.ApiEndpoint = "" :=
  ⟨by decide, by decide,
    (C4_endpoints_not_overwritten mixedCaseConf mixedCaseConf (by decide)).2.2 (by decide)⟩

/-- C5: for a document that passes validation, Htdocs of the result is "."
when the document's htdocs is empty and the document's value otherwise. -/
theorem C5_htdocs_default (c c' : Conf) (h : validateConf c = (some c', none)) :
    (c.Htdocs = "" → c'.Htdocs = ".") ∧ (c.Htdocs ≠ "" → c'.Htdocs = c.Htdocs) := by
  obtain ⟨-, rfl⟩ := (validateConf_ok_iff c c').1 h
  rw [applyDefaults_htdocs]
  constructor <;> intro he <;> simp [he]

/-- The htdocs value "./" of `TestParse` stays "./", and an empty one
becomes ".". -/
theorem C5_htdocs_default_witness :
    (validateConf sampleConf = (some sampleConf, none) ∧ sampleConf.Htdocs = "./") ∧
      (validateConf { sampleConf with Htdocs := "" } =
          (some { sampleConf with Htdocs := "." }, none) ∧
        ({ sampleConf with Htdocs := "." } : Conf).Htdocs = ".") :=
  ⟨⟨by decide, (C5_htdocs_default sampleConf sampleConf (by decide)).2 (by decide)⟩,
    ⟨by decide,
      (C5_htdocs_default { sampleConf with Htdocs := "" } { sampleConf with Htdocs := "." }
        (by decide)).1 (by decide)⟩⟩

/-! ## What a returned Config looks like -/

/-- C6: whatever the file read and the decoder do, a Config returned by
ParseConf has none of Addr, Auth.Session.Key, Auth.Info.Service,
Auth.Info.ClientId, Auth.Info.ClientSecret, Auth.Info.RedirectURL empty. -/
theorem C6_returned_conf_validated {β : Type} (readFile : String → β × Option String)
    (unmarshal : β → Conf → Conf × Option String) (path : String) (c' : Conf)
    (h : (ParseConf readFile unmarshal path).1 = some c') :
    c'.Addr ≠ "" ∧ c'.Auth.Session.Key ≠ "" ∧ c'.Auth.Info.Service ≠ "" ∧
      c'.Auth.Info.ClientId ≠ "" ∧ c'.Auth.Info.ClientSecret ≠ "" ∧
      c'.Auth.Info.RedirectURL ≠ "" := by
  obtain ⟨data, c, -, -, hv⟩ := ParseConf_ok_inv readFile unmarshal path c' h
  obtain ⟨hne, rfl⟩ := (validateConf_ok_iff c _).1 hv
  rw [applyDefaults_frame]
  simpa [anyRequiredEmpty, not_or] using hne

/-- The github test document loads, and the loaded Config has its six
required fields set. -/
theorem C6_returned_conf_validated_witness :
    (ParseConf readOk (decodeAs githubConf) "gate.yml").1 = some (applyDefaults githubConf) ∧
      (applyDefaults githubConf).Addr ≠ "" ∧
      (applyDefaults githubConf).Auth.Session.Key ≠ "" ∧
      (applyDefaults githubConf).Auth.Info.Service ≠ "" ∧
      (applyDefaults githubConf).Auth.Info.ClientId ≠ "" ∧
      (applyDefaults githubConf).Auth.Info.ClientSecret ≠ "" ∧
      (applyDefaults githubConf).Auth.Info.RedirectURL ≠ "" :=
  ⟨by decide,
    C6_returned_conf_validated readOk (decodeAs githubConf) "gate.yml" _ (by decide)⟩

/-- C7 (as stated) fails: a document with a proxy entry whose path and dest
are empty is returned by ParseConf without error, entry included. -/
theorem C7_empty_proxy_path_accepted :
    ParseConf readOk (decodeAs hostOnlyProxyConf) "gate.yml" =
        (some hostOnlyProxyConf, none) ∧
      ¬ (∀ p ∈ hostOnlyProxyConf.Proxies, p.Path ≠ "" ∧ p.Dest ≠ "") := by
  decide

/-- C7 (amended): ParseConf does not look at proxy entries.  A document that
passes validation still passes with any other proxy list in its place, and
the result carries that list; hence the entries of a returned Config have
non-empty Path and Dest whenever those of the decoded document do. -/
theorem C7_proxies_not_checked (c c' : Conf) (h : validateConf c = (some c', none)) :
    (∀ ps : List ProxyConf,
        validateConf (c.withProxies ps) = (some (c'.withProxies ps), none)) ∧
      ((∀ p ∈ c.Proxies, p.Path ≠ "" ∧ p.Dest ≠ "") →
        ∀ p ∈ c'.Proxies, p.Path ≠ "" ∧ p.Dest ≠ "") := by
  obtain ⟨hne, rfl⟩ := (validateConf_ok_iff c c').1 h
  constructor
  · intro ps
    exact (validateConf_ok_iff _ _).2 ⟨hne, (applyDefaults_proxies c ps).symm⟩
  · intro hp
    rw [applyDefaults_frame]
    exact hp

/-- Swapping the proxy list of the `TestParse` document for a host-only entry
keeps it valid. -/
theorem C7_proxies_not_checked_witness :
    validateConf sampleConf = (some sampleConf, none) ∧
      validateConf (sampleConf.withProxies [⟨"", "", false, "a.example.com"⟩]) =
        (some (sampleConf.withProxies [⟨"", "", false, "a.example.com"⟩]), none) :=
  ⟨by decide,
    (C7_proxies_not_checked sampleConf sampleConf (by decide)).1
      [⟨"", "", false, "a.example.com"⟩]⟩

/-! ## Fields passed through -/

/-- C8: for a document that passes validation, Proxies of the result is the
decoded proxy list itself: equal as lists, hence of the same length and with
the same entry at every index. -/
theorem C8_proxies_preserved (c c' : Conf) (h : validateConf c = (some c', none)) :
    c'.Proxies = c.Proxies ∧ c'.Proxies.length = c.Proxies.length ∧
      ∀ i : Nat, c'.Proxies[i]? = c.Proxies[i]? := by
  obtain ⟨-, rfl⟩ := (validateConf_ok_iff c c').1 h
  have hp : (applyDefaults c).Proxies = c.Proxies := by rw [applyDefaults_frame]
  exact ⟨hp, by rw [hp], fun i => by rw [hp]⟩

/-- Both routes of the vhost test document remain, the first-declared one
first. -/
theorem C8_proxies_preserved_witness :
    validateConf vhostConf = (some (applyDefaults vhostConf), none) ∧
      (applyDefaults vhostConf).Proxies =
        [⟨"/", "http://127.0.0.1:9200", false, "elasticsearch.example.com"⟩,
          ⟨"/", "http://127.0.0.1:8086", false, "influxdb.example.com"⟩] :=
  ⟨by decide, (C8_proxies_preserved vhostConf (applyDefaults vhostConf) (by decide)).1⟩

/-- C9: for a document that passes validation, Restrictions of the result is
the decoded restriction list itself: the same length and the same strings in
the same order. -/
theorem C9_restrictions_preserved (c c' : Conf) (h : validateConf c = (some c', none)) :
    c'.Restrictions = c.Restrictions ∧
      c'.Restrictions.length = c.Restrictions.length ∧
      ∀ i : Nat, c'.Restrictions[i]? = c.Restrictions[i]? := by
  obtain ⟨-, rfl⟩ := (validateConf_ok_iff c c').1 h
  have hp : (applyDefaults c).Restrictions = c.Restrictions := by rw [applyDefaults_frame]
  exact ⟨hp, by rw [hp], fun i => by rw [hp]⟩

/-- The two restrictions of the test document come out in the same order, and
a document without restrictions keeps an empty list. -/
theorem C9_restrictions_preserved_witness :
    (applyDefaults restrictedConf).Restrictions = ["example1.com", "example2.com"] ∧
      (applyDefaults sampleConf).Restrictions = [] :=
  ⟨(C9_restrictions_preserved restrictedConf (applyDefaults restrictedConf) (by decide)).1,
    (C9_restrictions_preserved sampleConf (applyDefaults sampleConf) (by decide)).1⟩

/-- C10: for a document that passes validation, the result is the document
with at most Htdocs, Auth.Info.Endpoint and Auth.Info.ApiEndpoint changed;
Addr, SSL.Cert, SSL.Key, Auth.Session.Key, Auth.Session.CookieDomain,
Auth.Info.Service, ClientId, ClientSecret, RedirectURL and the four Paths
fields are those of the document. -/
theorem C10_other_fields_unchanged (c c' : Conf) (h : validateConf c = (some c', none)) :
    c' = { c with
        Htdocs := c'.Htdocs
        Auth := { c.Auth with
          Info := { c.Auth.Info with
            Endpoint := c'.Auth.Info.Endpoint
            ApiEndpoint := c'.Auth.Info.ApiEndpoint } } } ∧
      c'.Addr = c.Addr ∧ c'.SSL.Cert = c.SSL.Cert ∧ c'.SSL.Key = c.SSL.Key ∧
      c'.Auth.Session.Key = c.Auth.Session.Key ∧
      c'.Auth.Session.CookieDomain = c.Auth.Session.CookieDomain ∧
      c'.Auth.Info.Service = c.Auth.Info.Service ∧
      c'.Auth.Info.ClientId = c.Auth.Info.ClientId ∧
      c'.Auth.Info.ClientSecret = c.Auth.Info.ClientSecret ∧
      c'.Auth.Info.RedirectURL = c.Auth.Info.RedirectURL ∧
      c'.Paths.Login = c.Paths.Login ∧ c'.Paths.Logout = c.Paths.Logout ∧
      c'.Paths.Callback = c.Paths.Callback ∧ c'.Paths.Error = c.Paths.Error := by
  obtain ⟨-, rfl⟩ := (validateConf_ok_iff c c').1 h
  refine ⟨applyDefaults_frame c, ?_⟩
  rw [applyDefaults_frame]
  simp

/-- The address ":9999" of `TestParse` is the Addr of the result. -/
theorem C10_other_fields_unchanged_witness :
    validateConf sampleConf = (some (applyDefaults sampleConf), none) ∧
      (applyDefaults sampleConf).Addr = ":9999" :=
  ⟨by decide,
    (C10_other_fields_unchanged sampleConf (applyDefaults sampleConf) (by decide)).2.1⟩

/-! ## SetOAuth2Paths: effect on the path table -/

/-- C11: after SetOAuth2Paths, each of the four entries of the path table
(login, logout, callback, error) is the corresponding Paths field when that
field is non-empty and its prior value when the field is empty; the value of
an entry is a function of its own field and its own prior value only. -/
theorem C11_paths_applied (c : Conf) (g : OAuth2Paths) :
    (c.SetOAuth2Paths g).2.PathLogin =
        (if c.Paths.Login = "" then g.PathLogin else c.Paths.Login) ∧
      (c.SetOAuth2Paths g).2.PathLogout =
        (if c.Paths.Logout = "" then g.PathLogout else c.Paths.Logout) ∧
      (c.SetOAuth2Paths g).2.PathCallback =
        (if c.Paths.Callback = "" then g.PathCallback else c.Paths.Callback) ∧
      (c.SetOAuth2Paths g).2.PathError =
        (if c.Paths.Error = "" then g.PathError else c.Paths.Error) := by
  simp only [Conf.SetOAuth2Paths]
  by_cases h1 : c.Paths.Login = "" <;> by_cases h2 : c.Paths.Logout = "" <;>
    by_cases h3 : c.Paths.Callback = "" <;> by_cases h4 : c.Paths.Error = "" <;>
    simp [*]

/-- The table of `TestPathConf`, and a document that sets the login path
only: the other three entries keep their prior values. -/
theorem C11_paths_applied_witness :
    (pathConf.SetOAuth2Paths priorPaths).2 =
        ⟨"/_gate_login", "/_gate_logout", "/_gate_callback", "/_gate_error"⟩ ∧
      (loginOnlyConf.SetOAuth2Paths priorPaths).2.PathLogin = "/_gate_login" ∧
      (loginOnlyConf.SetOAuth2Paths priorPaths).2.PathLogout = "/logout" :=
  ⟨by decide, (C11_paths_applied loginOnlyConf priorPaths).1,
    (C11_paths_applied loginOnlyConf priorPaths).2.1⟩

/-- C17: SetOAuth2Paths leaves the Config as it was, and running it a second
time on the table it produced gives that same table again. -/
theorem C17_set_paths_idempotent (c : Conf) (g : OAuth2Paths) :
    (c.SetOAuth2Paths g).1 = c ∧
      (c.SetOAuth2Paths g).1.SetOAuth2Paths (c.SetOAuth2Paths g).2 = c.SetOAuth2Paths g := by
  simp only [Conf.SetOAuth2Paths]
  by_cases h1 : c.Paths.Login = "" <;> by_cases h2 : c.Paths.Logout = "" <;>
    by_cases h3 : c.Paths.Callback = "" <;> by_cases h4 : c.Paths.Error = "" <;>
    simp [*]

/-! ## ParseConf: errors and repeated validation -/

/-- C12: ParseConf returns the read error when the read fails, the decode
error when the read succeeds and the decode fails, a nil Config whenever the
error is non-nil, and a nil error whenever the Config is non-nil. -/
theorem C12_no_partial_result {β : Type} (readFile : String → β × Option String)
    (unmarshal : β → Conf → Conf × Option String) (path : String) :
    (∀ e, (readFile path).2 = some e →
        ParseConf readFile unmarshal path = (none, some e)) ∧
      ((readFile path).2 = none →
        ∀ e, (unmarshal (readFile path).1 Conf.zero).2 = some e →
          ParseConf readFile unmarshal path = (none, some e)) ∧
      ((ParseConf readFile unmarshal path).2 ≠ none →
        (ParseConf readFile unmarshal path).1 = none) ∧
      ((ParseConf readFile unmarshal path).1 ≠ none →
        (ParseConf readFile unmarshal path).2 = none) := by
  rcases hr : readFile path with ⟨data, _ | e⟩
  · rcases hu : unmarshal data Conf.zero with ⟨c, _ | e⟩
    · rw [ParseConf_decoded readFile unmarshal path data c hr hu]
      have hv := validateConf_nil_iff c
      refine ⟨by simp, by simp [hu], fun h => hv.2 h, fun h => ?_⟩
      by_contra h2
      exact h (hv.2 h2)
    · rw [ParseConf_decode_err readFile unmarshal path data c e hr hu]
      simp [hu]
  · rw [ParseConf_read_err readFile unmarshal path data e hr]
    simp

/-- A failing read, a failing decode that had already filled in a complete
document, and a failing validation: each returns a nil Config and its own
error. -/
theorem C12_no_partial_result_witness :
    ParseConf (readFail "open gate.yml: no such file") (decodeAs sampleConf) "gate.yml" =
        (none, some "open gate.yml: no such file") ∧
      ParseConf readOk (decodeFail sampleConf "yaml: line 3") "gate.yml" =
        (none, some "yaml: line 3") ∧
      ParseConf readOk (decodeAs Conf.zero) "gate.yml" =
        (none, some "address config is required") :=
  ⟨(C12_no_partial_result (readFail "open gate.yml: no such file") (decodeAs sampleConf)
      "gate.yml").1 _ rfl,
    (C12_no_partial_result readOk (decodeFail sampleConf "yaml: line 3") "gate.yml").2.1
      rfl _ rfl,
    by decide⟩

/-- C16: a Config that validation returned passes validation again, and the
second result is that same Config, field by field: the htdocs and github
defaults change nothing on the second pass. -/
theorem C16_validated_is_fixed_point (c c' : Conf) (h : validateConf c = (some c', none)) :
    ∃ r, validateConf c' = (some r, none) ∧ r = c' ∧ r.fieldwiseEq c' := by
  obtain ⟨hne, rfl⟩ := (validateConf_ok_iff c c').1 h
  refine ⟨applyDefaults c, ?_, rfl, (Conf.fieldwiseEq_iff _ _).2 rfl⟩
  rw [validateConf_ok_iff, anyRequiredEmpty_applyDefaults, applyDefaults_idem]
  exact ⟨hne, rfl⟩

/-- The github test document with empty htdocs: the first pass fills in
three defaults, the second pass returns its input. -/
theorem C16_validated_is_fixed_point_witness :
    validateConf { githubConf with Htdocs := "" } =
        (some (applyDefaults { githubConf with Htdocs := "" }), none) ∧
      applyDefaults { githubConf with Htdocs := "" } ≠ { githubConf with Htdocs := "" } ∧
      ∃ r, validateConf (applyDefaults { githubConf with Htdocs := "" }) = (some r, none) ∧
        r = applyDefaults { githubConf with Htdocs := "" } ∧
        r.fieldwiseEq (applyDefaults { githubConf with Htdocs := "" }) :=
  ⟨by decide, by decide,
    C16_validated_is_fixed_point { githubConf with Htdocs := "" } _ (by decide)⟩

/-! ## RouteTable.Match and AccessPolicy.IsAllowed -/

/-- C14: Match returns the route r exactly when r stands in the table after
routes none of which qualifies and r itself qualifies (host empty or equal to
hostHeader, path a literal prefix of requestPath); it returns NoMatch exactly
when no route qualifies; and for the two vhost routes with path "/",
Match("elasticsearch.example.com", "/") is the first-declared route. -/
theorem C14_match_first_candidate (routes : List ProxyConf)
    (hostHeader requestPath : String) :
    (∀ r, RouteTable.Match routes hostHeader requestPath = some r ↔
        ∃ before after, routes = before ++ r :: after ∧
          ((r.Host = "" ∨ r.Host = hostHeader) ∧ r.Path.data <+: requestPath.data) ∧
          ∀ q ∈ before,
            ¬ ((q.Host = "" ∨ q.Host = hostHeader) ∧ q.Path.data <+: requestPath.data)) ∧
      (RouteTable.Match routes hostHeader requestPath = none ↔
        ∀ q ∈ routes,
          ¬ ((q.Host = "" ∨ q.Host = hostHeader) ∧ q.Path.data <+: requestPath.data)) ∧
      RouteTable.Match
          [⟨"/", "http://127.0.0.1:9200", false, "elasticsearch.example.com"⟩,
            ⟨"/", "http://127.0.0.1:8086", false, "influxdb.example.com"⟩]
          "elasticsearch.example.com" "/" =
        some ⟨"/", "http://127.0.0.1:9200", false, "elasticsearch.example.com"⟩ :=
  ⟨fun r => RouteTable.Match_eq_some_iff routes hostHeader requestPath r,
    RouteTable.Match_eq_none_iff routes hostHeader requestPath, by decide⟩

/-- C15: IsAllowed is true for every identifier when the restriction list is
empty; for a non-empty list it is true exactly when the identifier, after
case folding, ends with the case-folded form of one of the restrictions. -/
theorem C15_is_allowed (fold : Char → Char) (restrictions : List String)
    (identifier : String) :
    AccessPolicy.IsAllowed fold [] identifier = true ∧
      (restrictions ≠ [] →
        (AccessPolicy.IsAllowed fold restrictions identifier = true ↔
          ∃ r ∈ restrictions, r.data.map fold <:+ identifier.data.map fold)) := by
  refine ⟨rfl, fun hne => ?_⟩
  cases restrictions with
  | nil => exact absurd rfl hne
  | cons a rest =>
    simp only [AccessPolicy.IsAllowed, Bool.or_eq_true, List.any_eq_true,
      AccessPolicy.endsWithFold_iff, List.mem_cons]
    constructor
    · rintro (h | ⟨q, hm, h⟩)
      · exact ⟨a, Or.inl rfl, h⟩
      · exact ⟨q, Or.inr hm, h⟩
    · rintro ⟨q, rfl | hm, h⟩
      · exact Or.inl h
      · exact Or.inr ⟨q, hm, h⟩

/-- With the restrictions of `TestParseMultiRestrictions` and ASCII
lower-casing, an identifier in upper case at the second domain is allowed and
one at another domain is not. -/
theorem C15_is_allowed_witness :
    AccessPolicy.IsAllowed Char.toLower ["example1.com", "example2.com"]
        "bob@EXAMPLE2.COM" = true ∧
      AccessPolicy.IsAllowed Char.toLower ["example1.com", "example2.com"]
        "bob@example3.com" = false ∧
      ∃ r ∈ ["example1.com", "example2.com"],
        r.data.map Char.toLower <:+ "bob@EXAMPLE2.COM".data.map Char.toLower :=
  ⟨by decide, by decide,
    ((C15_is_allowed Char.toLower ["example1.com", "example2.com"] "bob@EXAMPLE2.COM").2
      (by decide)).1 (by decide)⟩

end Gate
